import Mathlib

/-!
Shallow embedding of the state-evolution core of the FIT2102 FlappyBirb
game (repository `wche0224/FIT2102_FlappyBirb`).

The repository holds iterative versions of `src/main.ts`.  Two tick
reducers are embedded here:

* `tickMain` — the tick reducer of `src/main.ts` (`tick$`, lines 380-566).
  That version samples the wall clock: `currentTime = performance.now() -
  s.timeStart`.  The ambient clock sample is made an explicit argument
  `wallNow`, so `currentTime = wallNow - s.timeStart`.
* `tickGated` — the tick reducer of the pause-capable iteration
  (`src/unnamed/part_001`, `tick$`, lines 843-1077), which derives time
  as `currentTime = s.elapsedTime + TICK_RATE_MS` and also suppresses the
  update while `s.paused`.

Both reducers share the same body (`tickBody`): physics constants
(gravity 0.6, flap -7, bounce 8 +- 4), pipe kinematics, collision and
scoring logic are identical in the two versions; the `part_001` variant
additionally recomputes the ghost position inside the tick (`tickBody`'s
`ghostPath` argument; `tickMain` passes `none`, matching `src/main.ts`
where the ghost position is written by a separate reducer stream,
embedded as `makeGhostReducerFn`).

JavaScript numbers are modelled as `ℚ` (the claims under study do not
depend on binary floating-point rounding), JS `%` as `Int.tmod`
(remainder with the sign of the dividend), and `undefined`-able fields
as `Option`.
-/

/-- `Viewport.CANVAS_WIDTH` -/
def canvasWidth : ℚ := 600

/-- `Viewport.CANVAS_HEIGHT` -/
def canvasHeight : ℚ := 400

/-- `Birb.WIDTH` -/
def birbWidth : ℚ := 42

/-- `Birb.HEIGHT` -/
def birbHeight : ℚ := 30

/-- `Birb.GRAVITY` (0.6 in `src/main.ts`) -/
def birbGravity : ℚ := 3/5

/-- `Constants.PIPE_WIDTH` -/
def pipeWidth : ℚ := 50

/-- `Constants.TICK_RATE_MS` -/
def tickRateMs : ℚ := 16

/-- `Constants.PIPE_TRAVEL_MS` -/
def pipeTravelMs : ℚ := 3000

/-- `Bounce.SPREAD` (4 in `src/main.ts`) -/
def bounceSpread : ℚ := 4

/-- `Bounce.MEAN` (8 in `src/main.ts`) -/
def bounceMean : ℚ := 8

/-- The win target: `s.score === 20` ends the run (`src/main.ts`). -/
def winTarget : ℕ := 20

/-- `floor = Viewport.CANVAS_HEIGHT - Birb.HEIGHT` = 370 -/
def birdFloor : ℚ := canvasHeight - birbHeight

/-- `distance = Viewport.CANVAS_WIDTH + Constants.PIPE_WIDTH` = 650 -/
def travelDistance : ℚ := canvasWidth + pipeWidth

/-- `BIRB_X = Viewport.CANVAS_WIDTH * 0.3 - Birb.WIDTH / 2` = 159 -/
def birbX : ℚ := canvasWidth * (3/10) - birbWidth / 2

/-- `BIRB_REAR = BIRB_X + Birb.WIDTH` = 201 -/
def birbRear : ℚ := birbX + birbWidth

namespace RNG

/-- `RNG.m = 0x80000000` -/
def m : ℤ := 2 ^ 31

/-- `RNG.a` -/
def a : ℤ := 1103515245

/-- `RNG.c` -/
def c : ℤ := 12345

/-- `RNG.hash = (a * seed + c) % m`; JS `%` is the truncated remainder,
so it is embedded as `Int.tmod` (sign of the dividend). -/
def hash (seed : ℤ) : ℤ := (a * seed + c).tmod m

/-- `RNG.scale = (2 * hash) / (m - 1) - 1` -/
def scale (h : ℤ) : ℚ := 2 * (h : ℚ) / ((m : ℚ) - 1) - 1

end RNG

/-- The `Pipe` record of `src/main.ts`. -/
structure Pipe where
  gapY : ℚ
  gapHeight : ℚ
  time : ℚ
  age : ℚ
  xpos : ℚ
  prevXpos : ℚ
  birdPassing : Bool
  prevPassing : Bool
  passed : Bool
  gapTop : ℚ
  gapBottom : ℚ

/-- The `State` record.  Union of the fields of the two embedded
versions (`paused` exists only in the `part_001` iteration; `src/main.ts`
never reads or writes it).  `pipeHistory`/`pipePassing` are declared in
the source `State` type but never written by any reducer, so they are
omitted. -/
structure State where
  birbPosition : ℚ
  birbVelocity : ℚ
  birbLives : ℚ
  timeStart : ℚ
  elapsedTime : ℚ
  score : ℕ
  gameOver : Bool
  pipeRead : Option (List Pipe)
  pipeRendering : Option (List Pipe)
  rngSeed : ℤ
  invinciblePipeTime : Option ℚ
  ghostBirbPos : Option ℚ
  paused : Bool

/-- `clamp01` of `src/main.ts`: `x <= 0 ? 0 : x >= 1 ? 1 : x`. -/
def clamp01 (x : ℚ) : ℚ := if x ≤ 0 then 0 else if 1 ≤ x then 1 else x

/-- `pipeXposAtAge` of `src/main.ts`:
`Viewport.CANVAS_WIDTH - distance * clamp01(age / travel)`. -/
def pipeXposAtAge (age : ℚ) : ℚ :=
  canvasWidth - travelDistance * clamp01 (age / pipeTravelMs)

/-- `clampToPipeGap` of `src/main.ts`:
`y <= p.gapTop ? p.gapTop : y >= p.gapBottom ? p.gapBottom : y`. -/
def clampToPipeGap (p : Pipe) (y : ℚ) : ℚ :=
  if y ≤ p.gapTop then p.gapTop else if p.gapBottom ≤ y then p.gapBottom else y

/-- `outsideGapY` of `src/main.ts`: `y <= p.gapTop || y >= p.gapBottom`. -/
def outsideGapY (p : Pipe) (y : ℚ) : Prop := y ≤ p.gapTop ∨ p.gapBottom ≤ y

instance (p : Pipe) (y : ℚ) : Decidable (outsideGapY p y) := by
  unfold outsideGapY; infer_instance

/-- `hitTopSide` of `src/main.ts`: `y <= p.gapTop`. -/
def hitTopSide (p : Pipe) (y : ℚ) : Prop := y ≤ p.gapTop

instance (p : Pipe) (y : ℚ) : Decidable (hitTopSide p y) := by
  unfold hitTopSide; infer_instance

/-- The per-pipe update of `pipeQueueUpdated` in `src/main.ts` tick:
recompute `age`, `xpos`, the overlap flag `birdPassing` (remembering the
previous one), and the sticky `passed` flag, from `currentTime = t`. -/
def updatePipe (t : ℚ) (p : Pipe) : Pipe :=
  let age := t - p.time
  let newX := pipeXposAtAge age
  { p with
    age := age
    prevXpos := p.xpos
    xpos := newX
    prevPassing := p.birdPassing
    birdPassing := if newX ≤ birbRear ∧ birbX ≤ newX + pipeWidth then true else false
    passed := if newX + pipeWidth < birbX then true else p.passed }

/-- `updatedBirbVelocity = s.birbVelocity + Birb.GRAVITY`. -/
def updatedBirbVelocity (s : State) : ℚ := s.birbVelocity + birbGravity

/-- `newBirbPositionUnbound = s.birbPosition + updatedBirbVelocity`. -/
def newBirbPositionUnbound (s : State) : ℚ :=
  s.birbPosition + updatedBirbVelocity s

/-- `updatedBirbPosition`: the integrated position clamped into the
canvas `[0, floor]`. -/
def updatedBirbPosition (s : State) : ℚ :=
  if newBirbPositionUnbound s ≤ 0 then 0
  else if birdFloor ≤ newBirbPositionUnbound s then birdFloor
  else newBirbPositionUnbound s

/-- `hitCanvas`: the clamped position sits on the floor or the ceiling. -/
def hitCanvas (s : State) : Prop :=
  updatedBirbPosition s = birdFloor ∨ updatedBirbPosition s = 0

instance (s : State) : Decidable (hitCanvas s) := by
  unfold hitCanvas; infer_instance

/-- `pipeQueue = s.pipeRead ?? pipeProperties`. -/
def pipeQueue (props : List Pipe) (s : State) : List Pipe := s.pipeRead.getD props

/-- `pipeQueueUpdated`: every pipe's derived fields recomputed at `t`. -/
def pipeQueueUpdated (props : List Pipe) (t : ℚ) (s : State) : List Pipe :=
  (pipeQueue props s).map (updatePipe t)

/-- `pipeQueuePass`: the already-spawned pipes (`p.time <= currentTime`). -/
def pipeQueuePass (props : List Pipe) (t : ℚ) (s : State) : List Pipe :=
  (pipeQueueUpdated props t s).filter (fun p => decide (p.time ≤ t))

/-- `nextPipe`: the on-screen pipes (`0 <= age <= travel`). -/
def nextPipe (props : List Pipe) (t : ℚ) (s : State) : List Pipe :=
  (pipeQueuePass props t s).filter (fun p => decide (0 ≤ p.age ∧ p.age ≤ pipeTravelMs))

/-- `currentPipePassing` (= `overlapping`): the first spawned pipe whose
horizontal span overlaps the bird. -/
def currentPipePassing (props : List Pipe) (t : ℚ) (s : State) : Option Pipe :=
  (pipeQueuePass props t s).find? (fun p => p.birdPassing)

/-- `firstHitThisPipe`: an overlapping pipe exists, the bird is outside
its gap, and the invincibility marker is not already this pipe's id. -/
def firstHitThisPipe (props : List Pipe) (t : ℚ) (s : State) : Bool :=
  match currentPipePassing props t s with
  | none => false
  | some p =>
      decide (outsideGapY p (updatedBirbPosition s)) &&
      decide (s.invinciblePipeTime ≠ some p.time)

/-- `keepPiercing`: still overlapping the pipe named by the marker. -/
def keepPiercing (props : List Pipe) (t : ℚ) (s : State) : Bool :=
  match currentPipePassing props t s with
  | none => false
  | some p => decide (s.invinciblePipeTime = some p.time)

/-- `isSideEntry`: a first hit whose overlap flag just turned on. -/
def isSideEntry (props : List Pipe) (t : ℚ) (s : State) : Bool :=
  match currentPipePassing props t s with
  | none => false
  | some p => firstHitThisPipe props t s && !p.prevPassing && p.birdPassing

/-- `shouldClamp = firstHitThisPipe && overlapping && !isSideEntry`. -/
def shouldClamp (props : List Pipe) (t : ℚ) (s : State) : Bool :=
  firstHitThisPipe props t s && !isSideEntry props t s

/-- `newBirbPosition`: clamp into the overlapping pipe's gap when
`shouldClamp`, otherwise keep the canvas-clamped position. -/
def newBirbPosition (props : List Pipe) (t : ℚ) (s : State) : ℚ :=
  match currentPipePassing props t s with
  | none => updatedBirbPosition s
  | some p =>
      if shouldClamp props t s then clampToPipeGap p (updatedBirbPosition s)
      else updatedBirbPosition s

/-- `hitTopSidePipe`: the first hit struck the gap's top bound. -/
def hitTopSidePipe (props : List Pipe) (t : ℚ) (s : State) : Bool :=
  match currentPipePassing props t s with
  | none => false
  | some p => firstHitThisPipe props t s && decide (hitTopSide p (updatedBirbPosition s))

/-- `hitCanvasTop = updatedBirbPosition === 0`. -/
def hitCanvasTop (s : State) : Bool := decide (updatedBirbPosition s = 0)

/-- `hitCanvas` as the boolean the source computes. -/
def hitCanvasB (s : State) : Bool := decide (hitCanvas s)

/-- `collideFrame = firstHitThisPipe || hitCanvas`. -/
def collideFrame (props : List Pipe) (t : ℚ) (s : State) : Bool :=
  firstHitThisPipe props t s || hitCanvasB s

/-- `seed1`: the PRNG seed, advanced once on a collision frame. -/
def seed1 (props : List Pipe) (t : ℚ) (s : State) : ℤ :=
  if collideFrame props t s then RNG.hash s.rngSeed else s.rngSeed

/-- `r`: the scaled random value on a collision frame. -/
def bounceR (props : List Pipe) (t : ℚ) (s : State) : ℚ :=
  if collideFrame props t s then RNG.scale (seed1 props t s) else 0

/-- `bounce = Bounce.MEAN + Bounce.SPREAD * r` on a collision frame. -/
def bounce (props : List Pipe) (t : ℚ) (s : State) : ℚ :=
  if collideFrame props t s then bounceMean + bounceSpread * bounceR props t s else 0

/-- `newBirbVelocity`: integrated velocity, or the bounce (pushing away
from the struck side) on a collision frame. -/
def newBirbVelocity (props : List Pipe) (t : ℚ) (s : State) : ℚ :=
  if !collideFrame props t s then updatedBirbVelocity s
  else if hitCanvasTop s || hitTopSidePipe props t s then bounce props t s
  else -(bounce props t s)

/-- `newBirbLives`: decrement by 1, floored at 0, on a collision frame. -/
def newBirbLives (props : List Pipe) (t : ℚ) (s : State) : ℚ :=
  if firstHitThisPipe props t s || hitCanvasB s then
    (if s.birbLives - 1 ≤ 0 then 0 else s.birbLives - 1)
  else s.birbLives

/-- `invinciblePipeTime2`: set on a fresh hit, kept while overlapping the
same pipe, cleared otherwise. -/
def invinciblePipeTime2 (props : List Pipe) (t : ℚ) (s : State) : Option ℚ :=
  match currentPipePassing props t s with
  | none => none
  | some p =>
      if firstHitThisPipe props t s then some p.time
      else if keepPiercing props t s then s.invinciblePipeTime
      else none

/-- `scoreUpdate`: the count of already-spawned pipes with `passed`. -/
def scoreUpdate (props : List Pipe) (t : ℚ) (s : State) : ℕ :=
  ((pipeQueuePass props t s).filter (fun p => p.passed)).length

/-- `newGameOver = newBirbLives === 0`. -/
def newGameOver (props : List Pipe) (t : ℚ) (s : State) : Bool :=
  decide (newBirbLives props t s = 0)

/-- `lastIdxLE` of `src/main.ts` (`makeGhostReducers`): JS
`path.reduce((best, pt, i) => (pt.t <= t ? i : best), 0)`, i.e. the index
of the latest sample with timestamp at most `t` (0 when none is). -/
def lastIdxLE (path : List (ℚ × ℚ)) (t : ℚ) : ℕ :=
  (path.foldl (fun acc pt => (if pt.1 ≤ t then acc.2 else acc.1, acc.2 + 1))
    ((0 : ℕ), (0 : ℕ))).1

/-- The ghost-player lookup shared by both versions: `none` for an empty
recording, the `y` of the latest sample with timestamp `<= t` while `t`
is within the recorded span, and `none` once `t` exceeds the last
recorded timestamp. -/
def ghostQuery (path : List (ℚ × ℚ)) (t : ℚ) : Option ℚ :=
  if path.isEmpty then none
  else if t ≤ (path.getLastD (0, 0)).1 then
    some ((path.getD (lastIdxLE path t) (0, 0)).2)
  else none

/-- The reducer emitted by `makeGhostReducers` of `src/main.ts` for
stream time `t`: write the ghost lookup into `ghostBirbPos`
(`some` while `t` is inside the recorded span, `none` past it). -/
def makeGhostReducerFn (path : List (ℚ × ℚ)) (t : ℚ) (s : State) : State :=
  { s with ghostBirbPos := ghostQuery path t }

/-- The shared tick body (everything after the terminal guard), at
`currentTime = t`.  `ghostPath` is the `part_001` in-tick ghost source
(`prevPathRef.value`); `src/main.ts` passes `none`, leaving
`ghostBirbPos` to its separate reducer stream. -/
def tickBody (props : List Pipe) (ghostPath : Option (List (ℚ × ℚ)))
    (t : ℚ) (s : State) : State :=
  { s with
    birbPosition := newBirbPosition props t s
    birbVelocity := newBirbVelocity props t s
    birbLives := newBirbLives props t s
    elapsedTime := t
    score := scoreUpdate props t s
    gameOver := newGameOver props t s
    pipeRead := some (pipeQueueUpdated props t s)
    pipeRendering := some (nextPipe props t s)
    rngSeed := seed1 props t s
    invinciblePipeTime := invinciblePipeTime2 props t s
    ghostBirbPos :=
      match ghostPath with
      | none => s.ghostBirbPos
      | some path => if path.isEmpty then s.ghostBirbPos else ghostQuery path t }

/-- The tick reducer of `src/main.ts` (`tick$`): identity once
`gameOver` or the win target is reached, else the body at the
wall-clock-derived time `performance.now() - s.timeStart`; the ambient
clock sample `performance.now()` is the explicit argument `wallNow`. -/
def tickMain (props : List Pipe) (wallNow : ℚ) (s : State) : State :=
  if s.gameOver = true ∨ s.score = winTarget then s
  else tickBody props none (wallNow - s.timeStart) s

/-- The tick reducer of the pause-capable iteration
(`src/unnamed/part_001`): identity when terminal or paused, else the
body at the clock-driven time `s.elapsedTime + TICK_RATE_MS`. -/
def tickGated (props : List Pipe) (ghostPath : Option (List (ℚ × ℚ)))
    (s : State) : State :=
  if s.gameOver = true ∨ s.score = winTarget ∨ s.paused = true then s
  else tickBody props ghostPath (s.elapsedTime + tickRateMs) s

/-- The `flap$` reducer: identity once terminal, else set the velocity
to the flap impulse -7. -/
def flap (s : State) : State :=
  if s.gameOver = true ∨ s.score = winTarget then s
  else { s with birbVelocity := -7 }

/-- The `pauseState$` reducer of `src/unnamed/part_001`: write the
pause boolean emitted by `pause$` into the state. -/
def pauseReducer (b : Bool) (s : State) : State := { s with paused := b }

/-- The `initialState` of `src/main.ts`; `timeStart` is
`performance.now()` at construction, the explicit argument `t0`. -/
def initialState (t0 : ℚ) : State :=
  { birbPosition := 200
    birbVelocity := 0
    birbLives := 3
    timeStart := t0
    elapsedTime := 0
    score := 0
    gameOver := false
    pipeRead := none
    pipeRendering := none
    rngSeed := 1234
    invinciblePipeTime := none
    ghostBirbPos := none
    paused := false }

/-- The discrete events the pause-capable orchestrator folds. -/
inductive GameEvent
  | tick
  | flap
  | pauseToggle

/-- One orchestrator step of `src/unnamed/part_001`: `pauseState$`
toggles the pause flag; `gatedGame$` switches `merge(flap$, tick$)` to
`EMPTY` while the pause boolean is on, so tick and flap events are
dropped while paused. -/
def applyEvent (props : List Pipe) (ghostPath : Option (List (ℚ × ℚ)))
    (s : State) : GameEvent → State
  | GameEvent.pauseToggle => pauseReducer (!s.paused) s
  | GameEvent.tick => if s.paused = true then s else tickGated props ghostPath s
  | GameEvent.flap => if s.paused = true then s else flap s

/-- The orchestrator's running fold (`scan`) over an event sequence. -/
def runEvents (props : List Pipe) (ghostPath : Option (List (ℚ × ℚ)))
    (es : List GameEvent) (s : State) : State :=
  es.foldl (applyEvent props ghostPath) s

/-! ## Helper lemmas -/

/-- `clamp01` is monotone. -/
theorem clamp01_mono {x y : ℚ} (h : x ≤ y) : clamp01 x ≤ clamp01 y := by
  unfold clamp01
  split_ifs with h1 h2 h3 h4 h5 <;> push_neg at * <;> linarith

/-- `updatePipe` keeps the spawn time. -/
theorem updatePipe_time (t : ℚ) (p : Pipe) : (updatePipe t p).time = p.time := rfl

/-- The `passed` flag is sticky under `updatePipe`. -/
theorem updatePipe_passed_mono (t : ℚ) (p : Pipe) (h : p.passed = true) :
    (updatePipe t p).passed = true := by
  unfold updatePipe
  dsimp only
  split_ifs <;> simp [h]

/-! ## C8 -/

/-- C8 (amended): `hash` is a pure function of the seed (same seed, same
output), and `scale (hash seed)` lies in `[-1, 1]` for every
NONNEGATIVE integer seed.  (For negative seeds the JS remainder keeps the
dividend's sign, so `hash` can be negative and `scale` falls below -1;
see the counterexample.) -/
theorem c8_prng_range (seed : ℤ) :
    RNG.hash seed = RNG.hash seed ∧
    (0 ≤ seed → -1 ≤ RNG.scale (RNG.hash seed) ∧ RNG.scale (RNG.hash seed) ≤ 1) := by
  refine ⟨rfl, fun hs => ?_⟩
  have hd : (0 : ℤ) ≤ RNG.a * seed + RNG.c := by
    have h1 : (0 : ℤ) ≤ RNG.a * seed :=
      mul_nonneg (by norm_num [RNG.a]) hs
    have h2 : (0 : ℤ) ≤ RNG.c := by norm_num [RNG.c]
    linarith
  have h0 : (0 : ℤ) ≤ RNG.hash seed := Int.tmod_nonneg _ hd
  have h1 : RNG.hash seed < RNG.m := by
    unfold RNG.hash
    exact Int.tmod_lt_of_pos _ (by norm_num [RNG.m])
  have h0q : (0 : ℚ) ≤ (RNG.hash seed : ℚ) := by exact_mod_cast h0
  have h1q : (RNG.hash seed : ℚ) ≤ (RNG.m : ℚ) - 1 := by
    have : RNG.hash seed ≤ RNG.m - 1 := by omega
    exact_mod_cast this
  have hm : (0 : ℚ) < (RNG.m : ℚ) - 1 := by norm_num [RNG.m]
  unfold RNG.scale
  constructor
  · have hnn : (0 : ℚ) ≤ 2 * (RNG.hash seed : ℚ) / ((RNG.m : ℚ) - 1) :=
      div_nonneg (by linarith) (le_of_lt hm)
    linarith
  · have hle : 2 * (RNG.hash seed : ℚ) / ((RNG.m : ℚ) - 1) ≤ 2 := by
      rw [div_le_iff₀ hm]
      linarith
    linarith

/-- C8 witness: the amended bound holds at the source's initial seed 1234. -/
theorem c8_prng_range_witness :
    (0 : ℤ) ≤ 1234 ∧
    (-1 ≤ RNG.scale (RNG.hash 1234) ∧ RNG.scale (RNG.hash 1234) ≤ 1) :=
  ⟨by decide, (c8_prng_range 1234).2 (by decide)⟩

/-- C8 counterexample: at seed -1, JS `%` (truncated remainder) yields a
negative hash, and `scale (hash (-1))` falls strictly below -1, refuting
"lies in [-1, 1] for any integer seed". -/
theorem c8_prng_range_counterexample : RNG.scale (RNG.hash (-1)) < -1 := by
  have h : RNG.hash (-1) = -1103502900 := by decide
  rw [h]
  norm_num [RNG.scale, RNG.m]

/-! ## C9 -/

/-- C9: for the recorded path `[(0,200),(16,195),(32,190)]`, the ghost
query at `t = 20` yields position 195 (the latest sample with timestamp
at most `t`), and at `t = 50` (past the last recorded timestamp) yields
no ghost position. -/
theorem c9_ghost_step_interpolation :
    ghostQuery [(0, 200), (16, 195), (32, 190)] 20 = some 195 ∧
    ghostQuery [(0, 200), (16, 195), (32, 190)] 50 = none := by
  constructor <;> decide

/-! ## C10 -/

/-- C10: a pipe's horizontal position is `canvasWidth` at age 0,
`canvasWidth - (canvasWidth + pipeWidth)` (= -50) at age
`travelDuration` (= 3000 ms), and is monotonically non-increasing in age
within `[0, travelDuration]`. -/
theorem c10_pipe_xpos :
    pipeXposAtAge 0 = canvasWidth ∧
    pipeXposAtAge pipeTravelMs = canvasWidth - (canvasWidth + pipeWidth) ∧
    ∀ a b : ℚ, 0 ≤ a → a ≤ b → b ≤ pipeTravelMs →
      pipeXposAtAge b ≤ pipeXposAtAge a := by
  refine ⟨?_, ?_, ?_⟩
  · norm_num [pipeXposAtAge, clamp01, canvasWidth, travelDistance, pipeWidth, pipeTravelMs]
  · norm_num [pipeXposAtAge, clamp01, canvasWidth, travelDistance, pipeWidth, pipeTravelMs]
  · intro a b _ hab _
    have hdiv : a / pipeTravelMs ≤ b / pipeTravelMs :=
      (div_le_div_iff_of_pos_right (by norm_num [pipeTravelMs])).mpr hab
    have hc := clamp01_mono hdiv
    unfold pipeXposAtAge
    have : travelDistance * clamp01 (a / pipeTravelMs) ≤
        travelDistance * clamp01 (b / pipeTravelMs) := by
      apply mul_le_mul_of_nonneg_left hc
      norm_num [travelDistance, canvasWidth, pipeWidth]
    linarith

/-- C10 witness: the monotonicity clause at the endpoints 0 and 3000. -/
theorem c10_pipe_xpos_witness :
    (0 : ℚ) ≤ 0 ∧ (0 : ℚ) ≤ 3000 ∧ (3000 : ℚ) ≤ pipeTravelMs ∧
    pipeXposAtAge 3000 ≤ pipeXposAtAge 0 :=
  ⟨le_refl 0, by decide, by norm_num [pipeTravelMs],
    c10_pipe_xpos.2.2 0 3000 (le_refl 0) (by decide) (by norm_num [pipeTravelMs])⟩

/-! ## C1 -/

/-- C1 (amended): once a state is terminal (`gameOver` or
`score = winTarget`), the tick reducers (both versions) and the flap
reducer return it unchanged.  (The ghost-position reducer and the
pause-toggle reducer do NOT check terminality and can change a terminal
state; see the counterexample.) -/
theorem c1_terminal_stability (props : List Pipe)
    (gp : Option (List (ℚ × ℚ))) (w : ℚ) (s : State)
    (h : s.gameOver = true ∨ s.score = winTarget) :
    tickMain props w s = s ∧ tickGated props gp s = s ∧ flap s = s := by
  refine ⟨?_, ?_, ?_⟩
  · unfold tickMain
    rw [if_pos h]
  · unfold tickGated
    rw [if_pos (by tauto)]
  · unfold flap
    rw [if_pos h]

/-- A concrete terminal state: the initial state with `gameOver` set. -/
def sTermC1 : State := { initialState 0 with gameOver := true }

/-- C1 witness: terminal stability of tick and flap at `sTermC1`. -/
theorem c1_terminal_stability_witness :
    (sTermC1.gameOver = true ∨ sTermC1.score = winTarget) ∧
    (tickMain [] 0 sTermC1 = sTermC1 ∧ tickGated [] none sTermC1 = sTermC1 ∧
      flap sTermC1 = sTermC1) :=
  ⟨Or.inl rfl, c1_terminal_stability [] none 0 sTermC1 (Or.inl rfl)⟩

/-- C1 counterexample: the ghost-position reducer of `src/main.ts`
(`makeGhostReducers`) and the pause-toggle reducer write their field
unconditionally, so applied to the terminal state `sTermC1` they return
a CHANGED state — refuting "every subsequent transformation ... returns
`s` unchanged" for the ghost-position and pause-toggle members of the
reducer set. -/
theorem c1_terminal_stability_counterexample :
    sTermC1.gameOver = true ∧
    makeGhostReducerFn [(0, 200)] 0 sTermC1 ≠ sTermC1 ∧
    pauseReducer true sTermC1 ≠ sTermC1 := by
  refine ⟨rfl, ?_, ?_⟩
  · intro h
    have h2 := congrArg State.ghostBirbPos h
    rw [show (makeGhostReducerFn [(0, 200)] 0 sTermC1).ghostBirbPos = some 200 from by decide,
      show sTermC1.ghostBirbPos = none from rfl] at h2
    cases h2
  · intro h
    have h2 := congrArg State.paused h
    rw [show (pauseReducer true sTermC1).paused = true from rfl,
      show sTermC1.paused = false from rfl] at h2
    cases h2

/-! ## C4 -/

/-- C4 (amended): the pause-capable tick (`src/unnamed/part_001`)
computes the new elapsed time purely as `s.elapsedTime + 16`, a function
of the previous state alone; but the tick of `src/main.ts` computes it
as `performance.now() - s.timeStart`, i.e. from the ambient wall-clock
sample (`wallNow`), not from the previous state's `elapsedTime`. -/
theorem c4_clock_determinism (props : List Pipe)
    (gp : Option (List (ℚ × ℚ))) (w : ℚ) (s : State)
    (hgo : s.gameOver = false) (hsc : s.score ≠ winTarget)
    (hp : s.paused = false) :
    (tickGated props gp s).elapsedTime = s.elapsedTime + tickRateMs ∧
    (tickMain props w s).elapsedTime = w - s.timeStart := by
  constructor
  · unfold tickGated
    rw [if_neg (by simp [hgo, hsc, hp])]
    rfl
  · unfold tickMain
    rw [if_neg (by simp [hgo, hsc])]
    rfl

/-- C4 witness: at the initial state, the gated tick advances
`elapsedTime` by exactly 16 ms, and the `src/main.ts` tick writes the
wall-clock-derived time. -/
theorem c4_clock_determinism_witness :
    ((initialState 0).gameOver = false ∧ (initialState 0).score ≠ winTarget ∧
      (initialState 0).paused = false) ∧
    (tickGated [] none (initialState 0)).elapsedTime =
      (initialState 0).elapsedTime + tickRateMs ∧
    (tickMain [] 100 (initialState 0)).elapsedTime = 100 - (initialState 0).timeStart :=
  ⟨⟨rfl, by decide, rfl⟩,
    c4_clock_determinism [] none 100 (initialState 0) rfl (by decide) rfl⟩

/-- C4 counterexample: the `src/main.ts` tick does NOT compute the new
elapsed time as `elapsedTime + 16` — at wall sample 100 it writes 100,
and two runs of the same tick on the same state with different ambient
clock samples (100 vs 116) produce different states. -/
theorem c4_clock_determinism_counterexample :
    (tickMain [] 100 (initialState 0)).elapsedTime ≠
      (initialState 0).elapsedTime + tickRateMs ∧
    tickMain [] 100 (initialState 0) ≠ tickMain [] 116 (initialState 0) := by
  have e1 : (tickMain [] 100 (initialState 0)).elapsedTime = 100 := by
    norm_num [tickMain, tickBody, winTarget, initialState]
  have e2 : (tickMain [] 116 (initialState 0)).elapsedTime = 116 := by
    norm_num [tickMain, tickBody, winTarget, initialState]
  constructor
  · rw [e1]
    norm_num [initialState, tickRateMs]
  · intro h
    have h3 := congrArg State.elapsedTime h
    rw [e1, e2] at h3
    norm_num at h3

/-! ## C5 -/

/-- C5 (amended): for every paused state, a clock tick returns the state
unchanged (both through the tick's own `paused` check and through the
orchestrator gate), and a pause-toggle still takes effect; but a flap
event arriving while paused is DISCARDED by the `gatedGame$` pause gate
(the flap reducer itself never consults `paused` and, applied directly
to a non-terminal state, would still set the velocity to -7). -/
theorem c5_pause_gating (props : List Pipe)
    (gp : Option (List (ℚ × ℚ))) (s : State) (hp : s.paused = true) :
    tickGated props gp s = s ∧
    applyEvent props gp s GameEvent.tick = s ∧
    applyEvent props gp s GameEvent.flap = s ∧
    (applyEvent props gp s GameEvent.pauseToggle).paused = false ∧
    (s.gameOver = false → s.score ≠ winTarget →
      flap s = { s with birbVelocity := -7 }) := by
  have ht : tickGated props gp s = s := by
    unfold tickGated
    rw [if_pos (Or.inr (Or.inr hp))]
  refine ⟨ht, ?_, ?_, ?_, ?_⟩
  · show (if s.paused = true then s else tickGated props gp s) = s
    rw [if_pos hp]
  · show (if s.paused = true then s else flap s) = s
    rw [if_pos hp]
  · show (pauseReducer (!s.paused) s).paused = false
    rw [show (pauseReducer (!s.paused) s).paused = !s.paused from rfl, hp]
    rfl
  · intro h1 h2
    unfold flap
    rw [if_neg (by simp [h1, h2])]

/-- A concrete paused state. -/
def sPausedC5 : State := { initialState 0 with paused := true }

/-- C5 witness: the amended pause behaviour at a concrete paused state. -/
theorem c5_pause_gating_witness :
    sPausedC5.paused = true ∧
    tickGated [] none sPausedC5 = sPausedC5 ∧
    applyEvent [] none sPausedC5 GameEvent.flap = sPausedC5 ∧
    (applyEvent [] none sPausedC5 GameEvent.pauseToggle).paused = false :=
  ⟨rfl, (c5_pause_gating [] none sPausedC5 rfl).1,
    (c5_pause_gating [] none sPausedC5 rfl).2.2.1,
    (c5_pause_gating [] none sPausedC5 rfl).2.2.2.1⟩

/-- C5 counterexample: folding the event sequence [pause-toggle, flap]
from the initial state, the flap is dropped by the pause gate — the
state after the flap event equals the state before it and the velocity
is still 0, refuting "a flap event applied to a paused state still
takes effect on the state". -/
theorem c5_pause_gating_counterexample :
    (runEvents [] none [GameEvent.pauseToggle] (initialState 0)).paused = true ∧
    runEvents [] none [GameEvent.pauseToggle, GameEvent.flap] (initialState 0) =
      runEvents [] none [GameEvent.pauseToggle] (initialState 0) ∧
    (runEvents [] none [GameEvent.pauseToggle, GameEvent.flap]
      (initialState 0)).birbVelocity = 0 ∧
    (0 : ℚ) ≠ -7 := by
  refine ⟨rfl, rfl, rfl, by decide⟩

/-! ## C2 -/

/-- C2 (amended): on a tick step in which the canvas-clamped integrated
position is outside the gap bounds of the overlapping pipe, that pipe's
previous-tick overlap flag was already true, AND the invincibility
marker does not already equal this pipe's identity, the resolved
position is the nearest gap bound (`gapTop` if at or above it,
`gapBottom` if at or below it).  (Without the marker condition the claim
fails: while the marker equals the pipe's identity, no clamping happens
at all; see the counterexample.) -/
theorem c2_collision_clamp (props : List Pipe) (w : ℚ) (s : State) (q : Pipe)
    (hterm : ¬(s.gameOver = true ∨ s.score = winTarget))
    (hov : currentPipePassing props (w - s.timeStart) s = some q)
    (hout : outsideGapY q (updatedBirbPosition s))
    (hprev : q.prevPassing = true)
    (hinv : s.invinciblePipeTime ≠ some q.time) :
    (tickMain props w s).birbPosition = clampToPipeGap q (updatedBirbPosition s) ∧
    (updatedBirbPosition s ≤ q.gapTop →
      (tickMain props w s).birbPosition = q.gapTop) ∧
    (q.gapTop < updatedBirbPosition s → q.gapBottom ≤ updatedBirbPosition s →
      (tickMain props w s).birbPosition = q.gapBottom) := by
  have hfh : firstHitThisPipe props (w - s.timeStart) s = true := by
    unfold firstHitThisPipe
    rw [hov]
    simp only [Bool.and_eq_true, decide_eq_true_eq]
    exact ⟨hout, hinv⟩
  have hside : isSideEntry props (w - s.timeStart) s = false := by
    unfold isSideEntry
    rw [hov]
    simp [hprev]
  have hsc : shouldClamp props (w - s.timeStart) s = true := by
    unfold shouldClamp
    rw [hfh, hside]
    rfl
  have hmain : (tickMain props w s).birbPosition =
      clampToPipeGap q (updatedBirbPosition s) := by
    unfold tickMain
    rw [if_neg hterm]
    show newBirbPosition props (w - s.timeStart) s = _
    unfold newBirbPosition
    rw [hov]
    simp [hsc]
  refine ⟨hmain, ?_, ?_⟩
  · intro hTop
    rw [hmain]
    unfold clampToPipeGap
    rw [if_pos hTop]
  · intro h1 h2
    rw [hmain]
    unfold clampToPipeGap
    rw [if_neg (by linarith), if_pos h2]

/-- A concrete scripted pipe: spawn time 0, gap bounds [100, 200],
stored overlap flag `birdPassing = true` from the previous tick. -/
def pipeC2 : Pipe :=
  { gapY := 3/8, gapHeight := 13/20, time := 0, age := 0, xpos := 600,
    prevXpos := 600, birdPassing := true, prevPassing := false, passed := false,
    gapTop := 100, gapBottom := 200 }

/-- `pipeC2` recomputed at tick time 2250: its `xpos` is 112.5 (inside
the bird's horizontal span [109, 201]), so it is the overlapping pipe,
and its `prevPassing` flag carries the previous tick's overlap. -/
def qC2 : Pipe := updatePipe 2250 pipeC2

/-- A concrete state 50 px above `pipeC2`'s gap, with no invincibility
marker. -/
def stateC2 : State :=
  { initialState 0 with birbPosition := 50, pipeRead := some [pipeC2] }

/-- The simp set that evaluates the embedded tick pipeline on concrete
inputs. -/
theorem qC2_eval : qC2 =
    { gapY := 3/8, gapHeight := 13/20, time := 0, age := 2250, xpos := 225/2,
      prevXpos := 600, birdPassing := true, prevPassing := true, passed := false,
      gapTop := 100, gapBottom := 200 } := by
  norm_num [qC2, updatePipe, pipeC2, pipeXposAtAge, clamp01, canvasWidth,
    travelDistance, pipeWidth, pipeTravelMs, birbRear, birbX, birbWidth]

/-- C2 witness: at `stateC2` (integrated position 50.6, above the gap
top 100, previous overlap already on, marker unset) the tick clamps the
bird to the gap top. -/
theorem c2_collision_clamp_witness :
    currentPipePassing [pipeC2] (2250 - stateC2.timeStart) stateC2 = some qC2 ∧
    outsideGapY qC2 (updatedBirbPosition stateC2) ∧
    qC2.prevPassing = true ∧
    stateC2.invinciblePipeTime ≠ some qC2.time ∧
    (tickMain [pipeC2] 2250 stateC2).birbPosition =
      clampToPipeGap qC2 (updatedBirbPosition stateC2) ∧
    (tickMain [pipeC2] 2250 stateC2).birbPosition = qC2.gapTop := by
  have hterm : ¬(stateC2.gameOver = true ∨ stateC2.score = winTarget) := by decide
  have hov : currentPipePassing [pipeC2] (2250 - stateC2.timeStart) stateC2 =
      some qC2 := by
    norm_num [currentPipePassing, pipeQueuePass, pipeQueueUpdated, pipeQueue,
      stateC2, initialState, List.find?, List.filter, qC2, updatePipe, pipeC2,
      pipeXposAtAge, clamp01, canvasWidth, travelDistance, pipeWidth,
      pipeTravelMs, birbRear, birbX, birbWidth]
  have hpos : updatedBirbPosition stateC2 = 253/5 := by
    norm_num [updatedBirbPosition, newBirbPositionUnbound, updatedBirbVelocity,
      stateC2, initialState, birbGravity, birdFloor, canvasHeight, birbHeight]
  have hout : outsideGapY qC2 (updatedBirbPosition stateC2) := by
    rw [hpos, qC2_eval]
    left
    norm_num
  have hprev : qC2.prevPassing = true := by rw [qC2_eval]
  have hinv : stateC2.invinciblePipeTime ≠ some qC2.time := by
    rw [qC2_eval]
    decide
  have htop : updatedBirbPosition stateC2 ≤ qC2.gapTop := by
    rw [hpos, qC2_eval]
    norm_num
  refine ⟨hov, hout, hprev, hinv,
    (c2_collision_clamp [pipeC2] 2250 stateC2 qC2 hterm hov hout hprev hinv).1,
    (c2_collision_clamp [pipeC2] 2250 stateC2 qC2 hterm hov hout hprev hinv).2.1 htop⟩

/-- `stateC2` but with the invincibility marker already equal to the
overlapping pipe's identity (spawn time 0). -/
def stateC2i : State :=
  { initialState 0 with
    birbPosition := 50
    pipeRead := some [pipeC2]
    invinciblePipeTime := some 0 }

/-- C2 counterexample: at `stateC2i` every hypothesis of the claim as
stated holds — the overlapping pipe exists, the canvas-clamped position
50.6 is outside its gap bounds [100, 200], and the pipe's previous-tick
overlap flag is true — yet the resolved position stays 50.6 and is NOT
clamped to either gap bound, because the invincibility marker already
equals the pipe's identity. -/
theorem c2_collision_clamp_counterexample :
    currentPipePassing [pipeC2] (2250 - stateC2i.timeStart) stateC2i = some qC2 ∧
    outsideGapY qC2 (updatedBirbPosition stateC2i) ∧
    qC2.prevPassing = true ∧
    (tickMain [pipeC2] 2250 stateC2i).birbPosition = 253/5 ∧
    (253/5 : ℚ) ≠ qC2.gapTop ∧ (253/5 : ℚ) ≠ qC2.gapBottom := by
  have hov : currentPipePassing [pipeC2] (2250 - stateC2i.timeStart) stateC2i =
      some qC2 := by
    norm_num [currentPipePassing, pipeQueuePass, pipeQueueUpdated, pipeQueue,
      stateC2i, initialState, List.find?, List.filter, qC2, updatePipe, pipeC2,
      pipeXposAtAge, clamp01, canvasWidth, travelDistance, pipeWidth,
      pipeTravelMs, birbRear, birbX, birbWidth]
  have hpos : updatedBirbPosition stateC2i = 253/5 := by
    norm_num [updatedBirbPosition, newBirbPositionUnbound, updatedBirbVelocity,
      stateC2i, initialState, birbGravity, birdFloor, canvasHeight, birbHeight]
  refine ⟨hov, ?_, by rw [qC2_eval], ?_, ?_, ?_⟩
  · rw [hpos, qC2_eval]
    left
    norm_num
  · norm_num [tickMain, tickBody, winTarget, stateC2i, initialState,
      newBirbPosition, currentPipePassing, pipeQueuePass, pipeQueueUpdated,
      pipeQueue, List.find?, List.filter, updatePipe, pipeC2, pipeXposAtAge,
      clamp01, canvasWidth, travelDistance, pipeWidth, pipeTravelMs, birbRear,
      birbX, birbWidth, shouldClamp, firstHitThisPipe, isSideEntry, outsideGapY,
      updatedBirbPosition, newBirbPositionUnbound, updatedBirbVelocity,
      birbGravity, birdFloor, canvasHeight, birbHeight]
  · rw [qC2_eval]
    norm_num
  · rw [qC2_eval]
    norm_num

/-! ## C3 -/

/-- C3: invincibility-by-id.  On a non-terminal tick: (i) if the
invincibility marker already equals the overlapping pipe's identity
(spawn time), no life is deducted for that pipe — lives change on that
tick only through a canvas-bound hit — and the marker is retained; (ii)
on a fresh hit (overlap, outside the gap, marker differs) the marker is
set to the overlapping pipe's identity; (iii) when no pipe overlaps the
bird any more, the marker is cleared (`none`). -/
theorem c3_invincibility_by_id (props : List Pipe) (w : ℚ) (s : State)
    (hterm : ¬(s.gameOver = true ∨ s.score = winTarget)) :
    (∀ q : Pipe, currentPipePassing props (w - s.timeStart) s = some q →
      (s.invinciblePipeTime = some q.time →
        (tickMain props w s).birbLives =
          (if hitCanvas s then
            (if s.birbLives - 1 ≤ 0 then 0 else s.birbLives - 1)
           else s.birbLives) ∧
        (tickMain props w s).invinciblePipeTime = some q.time) ∧
      (outsideGapY q (updatedBirbPosition s) →
        s.invinciblePipeTime ≠ some q.time →
        (tickMain props w s).invinciblePipeTime = some q.time)) ∧
    (currentPipePassing props (w - s.timeStart) s = none →
      (tickMain props w s).invinciblePipeTime = none) := by
  have hTick : tickMain props w s =
      tickBody props none (w - s.timeStart) s := by
    unfold tickMain
    rw [if_neg hterm]
  constructor
  · intro q hov
    constructor
    · intro hm
      have hfh : firstHitThisPipe props (w - s.timeStart) s = false := by
        unfold firstHitThisPipe
        rw [hov]
        simp [hm]
      have hkp : keepPiercing props (w - s.timeStart) s = true := by
        unfold keepPiercing
        rw [hov]
        simp [hm]
      constructor
      · rw [hTick]
        show newBirbLives props (w - s.timeStart) s = _
        unfold newBirbLives
        rw [hfh]
        simp only [Bool.false_or]
        unfold hitCanvasB
        by_cases hc : hitCanvas s
        · rw [if_pos (by simp [hc]), if_pos hc]
        · rw [if_neg (by simp [hc]), if_neg hc]
      · rw [hTick]
        show invinciblePipeTime2 props (w - s.timeStart) s = _
        unfold invinciblePipeTime2
        rw [hov]
        simp [hfh, hkp, hm]
    · intro hout hinv
      have hfh : firstHitThisPipe props (w - s.timeStart) s = true := by
        unfold firstHitThisPipe
        rw [hov]
        simp only [Bool.and_eq_true, decide_eq_true_eq]
        exact ⟨hout, hinv⟩
      rw [hTick]
      show invinciblePipeTime2 props (w - s.timeStart) s = _
      unfold invinciblePipeTime2
      rw [hov]
      simp [hfh]
  · intro hnone
    rw [hTick]
    show invinciblePipeTime2 props (w - s.timeStart) s = _
    unfold invinciblePipeTime2
    rw [hnone]

/-- C3 witness: at `stateC2i` (marker = overlapping pipe's spawn time 0,
bird embedded outside the gap, no canvas hit) the tick leaves the lives
at 3 and retains the marker. -/
theorem c3_invincibility_by_id_witness :
    currentPipePassing [pipeC2] (2250 - stateC2i.timeStart) stateC2i = some qC2 ∧
    stateC2i.invinciblePipeTime = some qC2.time ∧
    (tickMain [pipeC2] 2250 stateC2i).birbLives = stateC2i.birbLives ∧
    (tickMain [pipeC2] 2250 stateC2i).invinciblePipeTime = some qC2.time := by
  have hterm : ¬(stateC2i.gameOver = true ∨ stateC2i.score = winTarget) := by
    decide
  have hov : currentPipePassing [pipeC2] (2250 - stateC2i.timeStart) stateC2i =
      some qC2 := by
    norm_num [currentPipePassing, pipeQueuePass, pipeQueueUpdated, pipeQueue,
      stateC2i, initialState, List.find?, List.filter, qC2, updatePipe, pipeC2,
      pipeXposAtAge, clamp01, canvasWidth, travelDistance, pipeWidth,
      pipeTravelMs, birbRear, birbX, birbWidth]
  have hm : stateC2i.invinciblePipeTime = some qC2.time := by
    rw [qC2_eval]
    rfl
  have hnc : ¬hitCanvas stateC2i := by
    have hpos : updatedBirbPosition stateC2i = 253/5 := by
      norm_num [updatedBirbPosition, newBirbPositionUnbound,
        updatedBirbVelocity, stateC2i, initialState, birbGravity, birdFloor,
        canvasHeight, birbHeight]
    unfold hitCanvas
    rw [hpos]
    norm_num [birdFloor, canvasHeight, birbHeight]
  have hA := ((c3_invincibility_by_id [pipeC2] 2250 stateC2i hterm).1 qC2 hov).1 hm
  refine ⟨hov, hm, ?_, hA.2⟩
  rw [hA.1, if_neg hnc]

/-! ## C7 -/

/-- C7: within a run, `birbLives` is non-increasing under every
transformation and never drops below 0 (assuming the run invariant
`0 ≤ birbLives`, true from the initial 3): the tick decrements it by
exactly 1 on a collision frame, floored at 0, and leaves it unchanged on
a non-collision frame; flap, pause-toggle, and the ghost-position
reducer never change it. -/
theorem c7_lives_monotonic (props : List Pipe) (w tq : ℚ) (b : Bool)
    (path : List (ℚ × ℚ)) (s : State) (h0 : 0 ≤ s.birbLives) :
    (tickMain props w s).birbLives ≤ s.birbLives ∧
    0 ≤ (tickMain props w s).birbLives ∧
    (¬(s.gameOver = true ∨ s.score = winTarget) →
      (tickMain props w s).birbLives =
        (if collideFrame props (w - s.timeStart) s = true
         then max (s.birbLives - 1) 0 else s.birbLives)) ∧
    (flap s).birbLives = s.birbLives ∧
    (pauseReducer b s).birbLives = s.birbLives ∧
    (makeGhostReducerFn path tq s).birbLives = s.birbLives := by
  have hf : (flap s).birbLives = s.birbLives := by
    unfold flap
    split_ifs <;> rfl
  by_cases hterm : s.gameOver = true ∨ s.score = winTarget
  · rw [tickMain, if_pos hterm]
    exact ⟨le_refl _, h0, fun h => absurd hterm h, hf, rfl, rfl⟩
  · have hTick : (tickMain props w s).birbLives =
        newBirbLives props (w - s.timeStart) s := by
      rw [tickMain, if_neg hterm]
      rfl
    have hcf : collideFrame props (w - s.timeStart) s =
        (firstHitThisPipe props (w - s.timeStart) s || hitCanvasB s) := rfl
    refine ⟨?_, ?_, ?_, hf, rfl, rfl⟩
    · rw [hTick]
      unfold newBirbLives
      split_ifs <;> linarith
    · rw [hTick]
      unfold newBirbLives
      split_ifs <;> linarith
    · intro _
      rw [hTick, hcf]
      unfold newBirbLives
      by_cases hc : (firstHitThisPipe props (w - s.timeStart) s || hitCanvasB s) = true
      · rw [if_pos hc, if_pos hc, max_def]
      · rw [if_neg hc, if_neg hc]

/-- C7 witness: at the initial state (3 lives), one tick keeps the lives
within [0, 3]. -/
theorem c7_lives_monotonic_witness :
    (0 : ℚ) ≤ (initialState 0).birbLives ∧
    (tickMain [] 16 (initialState 0)).birbLives ≤ (initialState 0).birbLives ∧
    0 ≤ (tickMain [] 16 (initialState 0)).birbLives :=
  ⟨by decide,
    (c7_lives_monotonic [] 16 0 true [] (initialState 0) (by decide)).1,
    (c7_lives_monotonic [] 16 0 true [] (initialState 0) (by decide)).2.1⟩

/-! ## C6 -/

/-- Counting lemma for the score: spawned-and-passed pipes at time `t1`
stay spawned-and-passed after the pipes are recomputed at any later time
`t2` (the spawn time is preserved and `passed` is sticky), so the count
cannot decrease. -/
theorem score_filter_mono {t1 t2 : ℚ} (h : t1 ≤ t2) (Q : List Pipe) :
    ((Q.filter (fun p => decide (p.time ≤ t1))).filter (fun p => p.passed)).length ≤
    (((Q.map (updatePipe t2)).filter (fun p => decide (p.time ≤ t2))).filter
      (fun p => p.passed)).length := by
  rw [← List.countP_eq_length_filter, ← List.countP_eq_length_filter,
    List.countP_filter, List.countP_filter, List.countP_map]
  apply List.countP_mono_left
  intro p _ hp
  simp only [Function.comp, Bool.and_eq_true, decide_eq_true_eq] at hp ⊢
  exact ⟨updatePipe_passed_mono _ _ hp.1, by rw [updatePipe_time]; linarith [hp.2]⟩

/-- C6: the score is recomputed each tick as the count of
already-spawned pipes with `passed = true`, it is non-decreasing across
consecutive tick transformations, and no other transformation (flap,
pause-toggle, ghost-position update) changes it. -/
theorem c6_score_monotonic (props : List Pipe) (w1 w2 tq : ℚ) (b : Bool)
    (path : List (ℚ × ℚ)) (s : State) (h : w1 ≤ w2) :
    (tickMain props w1 s).score ≤ (tickMain props w2 (tickMain props w1 s)).score ∧
    (s.score = 0 → s.score ≤ (tickMain props w1 s).score) ∧
    (¬(s.gameOver = true ∨ s.score = winTarget) →
      (tickMain props w1 s).score =
        ((pipeQueuePass props (w1 - s.timeStart) s).filter (fun p => p.passed)).length) ∧
    (flap s).score = s.score ∧
    (pauseReducer b s).score = s.score ∧
    (makeGhostReducerFn path tq s).score = s.score := by
  have hf : (flap s).score = s.score := by
    unfold flap
    split_ifs <;> rfl
  have hrecompute : ¬(s.gameOver = true ∨ s.score = winTarget) →
      (tickMain props w1 s).score =
        ((pipeQueuePass props (w1 - s.timeStart) s).filter
          (fun p => p.passed)).length := by
    intro hterm
    rw [tickMain, if_neg hterm]
    rfl
  refine ⟨?_, fun hz => by rw [hz]; exact Nat.zero_le _, hrecompute, hf, rfl, rfl⟩
  by_cases hterm : s.gameOver = true ∨ s.score = winTarget
  · have e1 : tickMain props w1 s = s := by rw [tickMain, if_pos hterm]
    have e2 : tickMain props w2 s = s := by rw [tickMain, if_pos hterm]
    rw [e1, e2]
  · have e1 : tickMain props w1 s = tickBody props none (w1 - s.timeStart) s := by
      rw [tickMain, if_neg hterm]
    rw [e1]
    by_cases hterm1 : (tickBody props none (w1 - s.timeStart) s).gameOver = true ∨
        (tickBody props none (w1 - s.timeStart) s).score = winTarget
    · rw [show tickMain props w2 (tickBody props none (w1 - s.timeStart) s) =
          tickBody props none (w1 - s.timeStart) s from by
        rw [tickMain, if_pos hterm1]]
    · rw [show tickMain props w2 (tickBody props none (w1 - s.timeStart) s) =
          tickBody props none
            (w2 - (tickBody props none (w1 - s.timeStart) s).timeStart)
            (tickBody props none (w1 - s.timeStart) s) from by
        rw [tickMain, if_neg hterm1]]
      show ((pipeQueuePass props (w1 - s.timeStart) s).filter
          (fun p => p.passed)).length ≤
        ((pipeQueuePass props (w2 - s.timeStart)
            (tickBody props none (w1 - s.timeStart) s)).filter
          (fun p => p.passed)).length
      show (((pipeQueueUpdated props (w1 - s.timeStart) s).filter
            (fun p => decide (p.time ≤ w1 - s.timeStart))).filter
          (fun p => p.passed)).length ≤
        ((((pipeQueueUpdated props (w1 - s.timeStart) s).map
              (updatePipe (w2 - s.timeStart))).filter
            (fun p => decide (p.time ≤ w2 - s.timeStart))).filter
          (fun p => p.passed)).length
      exact score_filter_mono (by linarith) _

/-- C6 witness: two consecutive ticks from the initial state do not
decrease the score. -/
theorem c6_score_monotonic_witness :
    (16 : ℚ) ≤ 32 ∧
    (tickMain [] 16 (initialState 0)).score ≤
      (tickMain [] 32 (tickMain [] 16 (initialState 0))).score :=
  ⟨by decide,
    (c6_score_monotonic [] 16 32 0 true [] (initialState 0) (by decide)).1⟩
